import Mathlib

/-!
Shallow embedding of `homework.py` (a Telegram homework-status notifier).

The script polls an HTTP API once per cycle, validates the decoded JSON
body, renders the first homework record into a message, and sends it over
Telegram, deduplicating against the previously sent message.  External
effects (the HTTP request issued by `requests.get` and the Telegram
delivery performed by `bot.send_message`) are modelled as oracles supplied
per cycle (`HttpOutcome`, `DeliveryOutcome`); everything else is a direct
translation of the Python control flow.  Python exceptions are modelled
with `Except PyError`.
-/

set_option maxRecDepth 8000

namespace HomeworkBot

/-- Decoded Python/JSON values as they flow through the script:
`None`, strings, ints, bools, lists and string-keyed dicts. -/
inductive PyVal where
  | none
  | str (s : String)
  | int (n : Int)
  | bool (b : Bool)
  | list (xs : List PyVal)
  | dict (kvs : List (String × PyVal))

/-- Python exception values raised by the script, each carrying the text of
its single argument (for `unboundLocal`, the variable's name). -/
inductive PyError where
  | typeError (msg : String)
  | keyError (key : String)
  | valueError (msg : String)
  | indexError (msg : String)
  | incorrectStatus (msg : String)
  | unboundLocal (varName : String)
  | telegramError (msg : String)
deriving DecidableEq

/-- Is the exception a `telegram.TelegramError`?  (The script's model never
constructs one; the constructor exists so the loop's dedicated
`except telegram.TelegramError` branch can be stated.) -/
def PyError.isTelegramError : PyError → Bool
  | .telegramError _ => true
  | _ => false

/-- Is the exception the custom `IncorrectStatusError`? -/
def PyError.isIncorrectStatus : PyError → Bool
  | .incorrectStatus _ => true
  | _ => false

/-- Python `str(e)` for an exception: `KeyError` wraps its argument in
apostrophes, `UnboundLocalError` uses the standard interpreter text, the
rest print their single argument. -/
def pyErrStr : PyError → String
  | .typeError m => m
  | .keyError k => "\x27" ++ k ++ "\x27"
  | .valueError m => m
  | .indexError m => m
  | .incorrectStatus m => m
  | .unboundLocal v => "local variable \x27" ++ v ++ "\x27 referenced before assignment"
  | .telegramError m => m

/-- `d.get(k)` on the underlying association list, as an `Option`. -/
def pyLookup (kvs : List (String × PyVal)) (k : String) : Option PyVal :=
  match kvs.find? (fun kv => kv.1 == k) with
  | some kv => some kv.2
  | Option.none => Option.none

/-- Python `d.get(k)`: the bound value, or `None` when the key is absent. -/
def pyGet (kvs : List (String × PyVal)) (k : String) : PyVal :=
  match pyLookup kvs k with
  | some v => v
  | Option.none => PyVal.none

/-- `isinstance(v, list)`. -/
def isList : PyVal → Bool
  | .list _ => true
  | _ => false

/-- Python truthiness (`if v:`). -/
def pyTruthy : PyVal → Bool
  | .none => false
  | .str s => s != ""
  | .int n => n != 0
  | .bool b => b
  | .list xs => !xs.isEmpty
  | .dict kvs => !kvs.isEmpty

/-- Hashable values (usable as a dict-membership probe); lists and dicts
are unhashable and make `in` raise `TypeError`. -/
def isHashable : PyVal → Bool
  | .list _ => false
  | .dict _ => false
  | _ => true

/-- Python `str(v)` for the scalar values that reach message formatting.
No claim formats a container, so container rendering is abbreviated. -/
def pyStr : PyVal → String
  | .none => "None"
  | .str s => s
  | .int n => toString n
  | .bool b => if b then "True" else "False"
  | .list _ => "..."
  | .dict _ => "..."

/-- `v[k]` (dict subscription): `KeyError` when absent, `TypeError` when
`v` is not subscriptable by a string key. -/
def pySubscript (v : PyVal) (k : String) : Except PyError PyVal :=
  match v with
  | .dict kvs =>
      match pyLookup kvs k with
      | some x => .ok x
      | Option.none => .error (.keyError k)
  | _ => .error (.typeError "object is not subscriptable")

/-- `v[i]` (sequence subscription by a non-negative index). -/
def pyIndexNat (v : PyVal) (i : Nat) : Except PyError PyVal :=
  match v with
  | .list xs =>
      match xs.get? i with
      | some x => .ok x
      | Option.none => .error (.indexError "list index out of range")
  | _ => .error (.typeError "object is not subscriptable")

/-! ### Constants of homework.py -/

/-- `RETRY_PERIOD = 600`. -/
def RETRY_PERIOD : Int := 600

/-- `ENDPOINT` URL constant. -/
def ENDPOINT : String := "https://practicum.yandex.ru/api/user_api/homework_statuses/"

/-- `HOMEWORK_VERDICTS`: the static three-entry verdict table. -/
def HOMEWORK_VERDICTS : List (String × String) :=
  [("approved", "Работа проверена: ревьюеру всё понравилось. Ура!"),
   ("reviewing", "Работа взята на проверку ревьюером."),
   ("rejected", "Работа проверена: у ревьюера есть замечания.")]

/-- `status in HOMEWORK_VERDICTS` followed by `HOMEWORK_VERDICTS[status]`:
the verdict when `status` is a string bound in the table. -/
def verdictLookup : PyVal → Option String
  | .str s => (HOMEWORK_VERDICTS.find? (fun kv => kv.1 == s)).map (fun kv => kv.2)
  | _ => Option.none

/-! ### check_tokens -/

/-- The three environment-loaded credentials (each absent or a string). -/
structure Config where
  PRACTICUM_TOKEN : Option String
  TELEGRAM_TOKEN : Option String
  TELEGRAM_CHAT_ID : Option String

/-- Truthiness of an optional environment string (`None` and `''` are
falsy). -/
def pyTruthyOptStr : Option String → Bool
  | Option.none => false
  | some s => s != ""

/-- The `required_tokens` tuple of `check_tokens`, paired with the
truthiness of each named global. -/
def requiredTokens (cfg : Config) : List (String × Bool) :=
  [("PRACTICUM_TOKEN", pyTruthyOptStr cfg.PRACTICUM_TOKEN),
   ("TELEGRAM_TOKEN", pyTruthyOptStr cfg.TELEGRAM_TOKEN),
   ("TELEGRAM_CHAT_ID", pyTruthyOptStr cfg.TELEGRAM_CHAT_ID),
   ("ENDPOINT", ENDPOINT != "")]

/-- `check_tokens`: collects the falsy globals; when any is missing it
logs critically and calls `sys.exit(1)` (modelled as `.error` carrying the
exit code and the critical log line); otherwise returns `True`. -/
def check_tokens (cfg : Config) : Except (Nat × String) Bool :=
  let missing := ((requiredTokens cfg).filter (fun p => !p.2)).map (fun p => p.1)
  if missing = [] then .ok true
  else .error (1, "Не хватает следующихтокенов: " ++ String.intercalate ", " missing)

/-! ### send_message -/

/-- What `bot.send_message` does when called: succeeds, or raises an
exception rendered as the given text. -/
inductive DeliveryOutcome where
  | success
  | failure (errText : String)

/-- `send_message`: logs, attempts one delivery, and catches every
`Exception` from `bot.send_message`, logging it.  Returns the value that
propagates to the caller (always `.ok ()`) paired with the log lines. -/
def send_message (message : String) (outcome : DeliveryOutcome) :
    Except PyError Unit × List String :=
  match outcome with
  | .success =>
      (.ok (), ["Отправление сообщения: " ++ message,
                "Сообщение успешно отправлено: " ++ message])
  | .failure errText =>
      (.ok (), ["Отправление сообщения: " ++ message,
                "Ошибка при отправке сообщения: " ++ errText])

/-! ### get_api_answer -/

/-- What `requests.get` does when called: raises a `RequestException`
(network/connection failure), or completes with a status code and a
decoded JSON body. -/
inductive HttpOutcome where
  | netError (msg : String)
  | response (statusCode : Nat) (body : PyVal)

/-- `get_api_answer`: one fetch.  `except requests.RequestException` only
logs and falls through with `status_code` never assigned, so the next
line's read of `status_code` raises `UnboundLocalError`.  A non-200 status
raises `IncorrectStatusError` with the request params (the local
`timestamp` has been rebound to the params dict) and the status code; on
200 the decoded body is returned. -/
def get_api_answer (timestamp : Int) (http : HttpOutcome) : Except PyError PyVal :=
  match http with
  | .netError _ => .error (.unboundLocal "status_code")
  | .response statusCode body =>
      if statusCode ≠ 200 then
        .error (.incorrectStatus
          ("При отправке запроса c params " ++
           "\x7b\x27from_date\x27: " ++ toString timestamp ++ "\x7d" ++
           "был получен " ++ toString statusCode))
      else .ok body

/-! ### check_response -/

/-- `check_response`: requires a dict whose `homeworks` value is a list,
and returns the input itself; each failure mode raises
`TypeError('Неверный формат ответа')`. -/
def check_response (response : PyVal) : Except PyError PyVal :=
  match response with
  | .dict kvs =>
      if isList (pyGet kvs "homeworks") then .ok response
      else .error (.typeError "Неверный формат ответа")
  | _ => .error (.typeError "Неверный формат ответа")

/-! ### parse_status -/

/-- `parse_status`: requires the `homework_name` key, looks the record's
`status` up in `HOMEWORK_VERDICTS`, and renders the notification text.
Membership with an unhashable `status` would raise `TypeError`; a missing
`homework_name` raises `KeyError`; an unknown status raises `ValueError`.
(The catch-all arm stands for the `in` check on a non-dict record, which
no claim exercises.) -/
def parse_status (homework : PyVal) : Except PyError String :=
  match homework with
  | .dict kvs =>
      if (pyLookup kvs "homework_name").isSome then
        if isHashable (pyGet kvs "status") then
          match verdictLookup (pyGet kvs "status") with
          | some verdict =>
              .ok ("Изменился статус проверки работы \"" ++ pyStr (pyGet kvs "homework_name") ++
                   "\". " ++ verdict)
          | Option.none =>
              .error (.valueError ("Неизвестный статус домашней работы: " ++
                pyStr (pyGet kvs "status")))
        else .error (.typeError "unhashable type")
      else .error (.keyError "В словаре отсутствует ключ homework_name")
  | _ => .error (.typeError "argument is not a mapping")

/-! ### The main loop -/

/-- The loop state `main` holds across cycles: the `timestamp` lower bound
computed once before the loop, and `last_message` (initially `None`). -/
structure LoopState where
  timestamp : Int
  last_message : Option String

/-- One cycle's external environment: the wall clock at the cycle (which
the loop body never reads — it is here so claims about advancing the
timestamp to the current time can be stated), what `requests.get` does,
and what `bot.send_message` does for the status send and for the
error-branch send. -/
structure CycleEnv where
  now : Int
  http : HttpOutcome
  sendOutcome : DeliveryOutcome
  errSendOutcome : DeliveryOutcome

/-- The fetch/validate/parse pipeline of the `try` block, up to the parsed
message: `.ok (some m)` when a new record was parsed to `m`, `.ok none`
when `homeworks` is empty (the `Новых статусов нет` branch), `.error`
when any step raises. -/
def cycleParse (env : CycleEnv) (st : LoopState) : Except PyError (Option String) :=
  match get_api_answer st.timestamp env.http with
  | .error e => .error e
  | .ok response =>
    match check_response response with
    | .error e => .error e
    | .ok new_homeworks =>
      match pySubscript new_homeworks "homeworks" with
      | .error e => .error e
      | .ok hws =>
        if pyTruthy hws then
          match pyIndexNat hws 0 with
          | .error e => .error e
          | .ok homework =>
            match parse_status homework with
            | .error e => .error e
            | .ok message => .ok (some message)
        else .ok Option.none

/-- The notification text of the generic error handler. -/
def errorText (e : PyError) : String :=
  "Произошла ошибка: " ++ pyErrStr e

/-- The two `except` clauses: a `telegram.TelegramError` is only logged;
any other `Exception` is logged and an error notification is attempted
(the surrounding `suppress(telegram.TelegramError)` is inert because
`send_message` swallows every exception itself).  Returns the next state
and the texts passed to `send_message` (the delivery attempts). -/
def handleError (env : CycleEnv) (st : LoopState) (e : PyError) :
    LoopState × List String :=
  if e.isTelegramError then (st, [])
  else
    let _called := (send_message (errorText e) env.errSendOutcome).1
    (st, [errorText e])

/-- One iteration of the `while True` body.  On a parsed message that
differs from `last_message`, `send_message` is called and then
`last_message` is assigned (an exception escaping `send_message` would
reach the `except` clauses first, which cannot happen).  The local
`timestamp` is never reassigned anywhere in the loop. -/
def runCycle (env : CycleEnv) (st : LoopState) : LoopState × List String :=
  match cycleParse env st with
  | .ok (some message) =>
      if some message ≠ st.last_message then
        match (send_message message env.sendOutcome).1 with
        | .ok _ => ({ st with last_message := some message }, [message])
        | .error e => handleError env st e
      else (st, [])
  | .ok Option.none => (st, [])
  | .error e => handleError env st e

/-- A finite prefix of the infinite loop: the final state and the
concatenated delivery attempts. -/
def runCycles : List CycleEnv → LoopState → LoopState × List String
  | [], st => (st, [])
  | env :: rest, st =>
      let r1 := runCycle env st
      let r2 := runCycles rest r1.1
      (r2.1, r1.2 ++ r2.2)

/-- `main` up to and including a finite prefix of the loop: `check_tokens`
first (its `sys.exit(1)` aborts before any cycle), then the loop starting
from `timestamp = int(time.time()) - RETRY_PERIOD` and
`last_message = None`. -/
def main_run (cfg : Config) (startTime : Int) (envs : List CycleEnv) :
    Except (Nat × String) (LoopState × List String) :=
  match check_tokens cfg with
  | .error a => .error a
  | .ok _ =>
      .ok (runCycles envs
        { timestamp := startTime - RETRY_PERIOD, last_message := Option.none })

/-! ### Spec-side predicate (for the validator's refinement claim) -/

/-- Well-shaped poll response in the words of the spec: a mapping whose
`homeworks` field is present and bound to an ordered sequence. -/
def specWellShaped (v : PyVal) : Prop :=
  ∃ kvs hws, v = PyVal.dict kvs ∧ pyLookup kvs "homeworks" = some (PyVal.list hws)

/-! ### Concrete inputs used by witnesses and counterexamples -/

/-- Loop state at loop entry with start time 1600 (so `timestamp = 1000`). -/
def st0 : LoopState := { timestamp := 1000, last_message := Option.none }

/-- A record in `reviewing`. -/
def hw1rev : PyVal :=
  .dict [("homework_name", PyVal.str "hw1"), ("status", PyVal.str "reviewing")]

/-- The same record moved to `approved`. -/
def hw1app : PyVal :=
  .dict [("homework_name", PyVal.str "hw1"), ("status", PyVal.str "approved")]

/-- The notification text for `hw1rev`. -/
def msgRev : String :=
  "Изменился статус проверки работы \"hw1\". Работа взята на проверку ревьюером."

/-- The notification text for `hw1app`. -/
def msgApp : String :=
  "Изменился статус проверки работы \"hw1\". Работа проверена: ревьюеру всё понравилось. Ура!"

/-- A cycle that fetches `hw1rev` and delivers successfully. -/
def envRev : CycleEnv :=
  { now := 5000, http := .response 200 (.dict [("homeworks", PyVal.list [hw1rev])]),
    sendOutcome := .success, errSendOutcome := .success }

/-- The same fetch, but Telegram delivery fails. -/
def envRevFail : CycleEnv :=
  { envRev with sendOutcome := .failure "Bad Request: chat not found" }

/-- A cycle that fetches `hw1app`. -/
def envApp : CycleEnv :=
  { now := 6000, http := .response 200 (.dict [("homeworks", PyVal.list [hw1app])]),
    sendOutcome := .success, errSendOutcome := .success }

/-- A successful cycle with an empty `homeworks` sequence. -/
def envOkEmpty : CycleEnv :=
  { now := 5000, http := .response 200 (.dict [("homeworks", PyVal.list [])]),
    sendOutcome := .success, errSendOutcome := .success }

/-- A cycle whose fetch returns HTTP 503. -/
def env503 : CycleEnv :=
  { now := 5000, http := .response 503 (.dict []),
    sendOutcome := .success, errSendOutcome := .success }

/-- The `IncorrectStatusError` text for a 503 at `timestamp = 1000`. -/
def sc503msg : String :=
  "При отправке запроса c params \x7b\x27from_date\x27: 1000\x7dбыл получен 503"

/-- The error notification the loop attempts for that 503. -/
def errMsg503 : String := "Произошла ошибка: " ++ sc503msg

/-- A configuration whose API token is absent. -/
def cfgMissing : Config :=
  { PRACTICUM_TOKEN := Option.none, TELEGRAM_TOKEN := some "t",
    TELEGRAM_CHAT_ID := some "c" }

/-! ### Helper lemmas -/

/-- `send_message` returns normally on both delivery outcomes. -/
theorem send_message_never_raises (m : String) (o : DeliveryOutcome) :
    (send_message m o).1 = Except.ok () := by
  cases o <;> rfl

/-- The error handler never changes the loop state. -/
theorem handleError_fst (env : CycleEnv) (st : LoopState) (e : PyError) :
    (handleError env st e).1 = st := by
  unfold handleError
  split <;> rfl

/-- No branch of one cycle reassigns the timestamp. -/
theorem runCycle_timestamp (env : CycleEnv) (st : LoopState) :
    (runCycle env st).1.timestamp = st.timestamp := by
  unfold runCycle
  split
  · split
    · split
      · rfl
      · rw [handleError_fst]
    · rfl
  · rfl
  · rw [handleError_fst]

/-- No finite run of the loop reassigns the timestamp. -/
theorem runCycles_timestamp (envs : List CycleEnv) (st : LoopState) :
    (runCycles envs st).1.timestamp = st.timestamp := by
  induction envs generalizing st with
  | nil => rfl
  | cons env rest ih =>
      show (runCycles rest (runCycle env st).1).1.timestamp = st.timestamp
      rw [ih, runCycle_timestamp]

/-- `get_api_answer` never raises a `telegram.TelegramError`. -/
theorem get_api_answer_no_tg (ts : Int) (http : HttpOutcome) (e : PyError)
    (h : get_api_answer ts http = .error e) : e.isTelegramError = false := by
  unfold get_api_answer at h
  split at h
  · injection h with h2
    subst h2
    rfl
  · split at h
    · injection h with h2
      subst h2
      rfl
    · exact Except.noConfusion h

/-- `check_response` never raises a `telegram.TelegramError`. -/
theorem check_response_no_tg (v : PyVal) (e : PyError)
    (h : check_response v = .error e) : e.isTelegramError = false := by
  unfold check_response at h
  split at h
  · split at h
    · exact Except.noConfusion h
    · injection h with h2
      subst h2
      rfl
  · injection h with h2
    subst h2
    rfl

/-- Dict subscription never raises a `telegram.TelegramError`. -/
theorem pySubscript_no_tg (v : PyVal) (k : String) (e : PyError)
    (h : pySubscript v k = .error e) : e.isTelegramError = false := by
  unfold pySubscript at h
  split at h
  · split at h
    · exact Except.noConfusion h
    · injection h with h2
      subst h2
      rfl
  · injection h with h2
    subst h2
    rfl

/-- Sequence subscription never raises a `telegram.TelegramError`. -/
theorem pyIndexNat_no_tg (v : PyVal) (i : Nat) (e : PyError)
    (h : pyIndexNat v i = .error e) : e.isTelegramError = false := by
  unfold pyIndexNat at h
  split at h
  · split at h
    · exact Except.noConfusion h
    · injection h with h2
      subst h2
      rfl
  · injection h with h2
    subst h2
    rfl

/-- `parse_status` never raises a `telegram.TelegramError`. -/
theorem parse_status_no_tg (v : PyVal) (e : PyError)
    (h : parse_status v = .error e) : e.isTelegramError = false := by
  unfold parse_status at h
  split at h
  · split at h
    · split at h
      · split at h
        · exact Except.noConfusion h
        · injection h with h2
          subst h2
          rfl
      · injection h with h2
        subst h2
        rfl
    · injection h with h2
      subst h2
      rfl
  · injection h with h2
    subst h2
    rfl

/-- The fetch/validate/parse pipeline never raises a
`telegram.TelegramError`. -/
theorem cycleParse_no_tg (env : CycleEnv) (st : LoopState) (e : PyError)
    (h : cycleParse env st = .error e) : e.isTelegramError = false := by
  unfold cycleParse at h
  split at h
  · rename_i e1 heq
    injection h with h2
    subst h2
    exact get_api_answer_no_tg _ _ _ heq
  · rename_i response heq
    split at h
    · rename_i e1 heq2
      injection h with h2
      subst h2
      exact check_response_no_tg _ _ heq2
    · rename_i nh heq2
      split at h
      · rename_i e1 heq3
        injection h with h2
        subst h2
        exact pySubscript_no_tg _ _ _ heq3
      · rename_i hws heq3
        split at h
        · split at h
          · rename_i e1 heq4
            injection h with h2
            subst h2
            exact pyIndexNat_no_tg _ _ _ heq4
          · rename_i hwrec heq4
            split at h
            · rename_i e1 heq5
              injection h with h2
              subst h2
              exact parse_status_no_tg _ _ heq5
            · exact Except.noConfusion h
        · exact Except.noConfusion h

/-- A cycle whose pipeline raises is handled by the generic branch: the
state is kept and one error notification is attempted. -/
theorem runCycle_error (env : CycleEnv) (st : LoopState) (e : PyError)
    (h : cycleParse env st = .error e) :
    runCycle env st = (st, [errorText e]) := by
  have hnt := cycleParse_no_tg env st e h
  simp [runCycle, handleError, h, hnt]

/-- A cycle that parses a fresh message attempts it once and records it. -/
theorem runCycle_new_message (env : CycleEnv) (st : LoopState) (m : String)
    (h : cycleParse env st = .ok (some m)) (hne : some m ≠ st.last_message) :
    runCycle env st = ({ st with last_message := some m }, [m]) := by
  simp [runCycle, h, hne, send_message_never_raises]

/-- A cycle that parses the previously recorded message attempts nothing. -/
theorem runCycle_dup (env : CycleEnv) (st : LoopState) (m : String)
    (h : cycleParse env st = .ok (some m)) (heq : some m = st.last_message) :
    runCycle env st = (st, []) := by
  simp only [runCycle, h]
  rw [if_neg (not_not_intro heq)]

/-- `isList` characterisation. -/
theorem isList_true_iff (v : PyVal) : isList v = true ↔ ∃ xs, v = PyVal.list xs := by
  cases v <;> simp [isList]

/-- `pyGet` returns a list exactly when the key is bound to one. -/
theorem pyGet_eq_list (kvs : List (String × PyVal)) (k : String) (xs : List PyVal) :
    pyGet kvs k = PyVal.list xs ↔ pyLookup kvs k = some (PyVal.list xs) := by
  unfold pyGet
  cases h : pyLookup kvs k <;> simp

/-! ### Claims -/

/-- C1 (counterexample): a cycle in which fetch, validation and parsing all
complete without error (empty `homeworks`) leaves `last_timestamp` at its
old value 1000 even though the current time is 5000 — the loop does not
advance it to the current time. -/
theorem C1_counterexample :
    cycleParse envOkEmpty st0 = Except.ok Option.none
    ∧ (runCycle envOkEmpty st0).1.timestamp = st0.timestamp
    ∧ st0.timestamp = 1000 ∧ envOkEmpty.now = 5000
    ∧ (runCycle envOkEmpty st0).1.timestamp ≠ envOkEmpty.now := by
  exact ⟨rfl, rfl, rfl, rfl, by decide⟩

/-- C1 (amended): the loop never advances `last_timestamp` at all — after
any cycle, and after any finite run of cycles, it equals its value at loop
entry, so every fetch uses the timestamp computed once at startup. -/
theorem C1_amended_no_advance :
    (∀ env st, (runCycle env st).1.timestamp = st.timestamp)
    ∧ ∀ envs st, (runCycles envs st).1.timestamp = st.timestamp :=
  ⟨runCycle_timestamp, runCycles_timestamp⟩

/-- C2 (counterexample): the same exception text (`IncorrectStatusError`
from an HTTP 503) in two consecutive cycles produces two error
notifications with the identical text, not exactly one. -/
theorem C2_counterexample :
    (runCycles [env503, env503] st0).2 = [errMsg503, errMsg503]
    ∧ (runCycles [env503, env503] st0).2.length = 2 := ⟨rfl, rfl⟩

/-- C2 (amended): the controller keeps no `last_error_message` state and
performs no error deduplication: on every cycle whose error is not a
delivery-transport error it attempts exactly one error notification with
the error text, unconditionally. -/
theorem C2_amended_no_error_dedup (env : CycleEnv) (st : LoopState) (e : PyError)
    (h : cycleParse env st = .error e) (_hnt : e.isTelegramError = false) :
    (runCycle env st).2 = [errorText e] := by
  rw [runCycle_error env st e h]

/-- C2 (witness for the amended claim): the 503 cycle attempts exactly the
one error notification. -/
theorem C2_amended_no_error_dedup_witness :
    (runCycle env503 st0).2 = [errorText (PyError.incorrectStatus sc503msg)] :=
  C2_amended_no_error_dedup env503 st0 (PyError.incorrectStatus sc503msg) rfl rfl

/-- C3 (code bug, evaluated at the failing input): on a network failure
`get_api_answer` raises `UnboundLocalError` for `status_code` — the
swallowed `RequestException` falls through to the status check — instead
of a normalized connectivity error; the raised error is not the
HTTP-status kind. -/
theorem C3_network_failure_unbound_local :
    get_api_answer 1000 (HttpOutcome.netError "Connection refused")
      = Except.error (PyError.unboundLocal "status_code")
    ∧ (PyError.unboundLocal "status_code").isIncorrectStatus = false := ⟨rfl, rfl⟩

/-- C4: for every record containing `homework_name`, `parse_status`
returns the exact formatted string for each of the three known status
codes with its verdict sentence, and raises `ValueError` (unknown status)
when `status` is any other string or is absent. -/
theorem C4_parse_status_contract (kvs : List (String × PyVal))
    (hname : (pyLookup kvs "homework_name").isSome = true) :
    (pyGet kvs "status" = PyVal.str "approved" →
      parse_status (.dict kvs) = .ok
        ("Изменился статус проверки работы \"" ++ pyStr (pyGet kvs "homework_name")
          ++ "\". Работа проверена: ревьюеру всё понравилось. Ура!"))
    ∧ (pyGet kvs "status" = PyVal.str "reviewing" →
      parse_status (.dict kvs) = .ok
        ("Изменился статус проверки работы \"" ++ pyStr (pyGet kvs "homework_name")
          ++ "\". Работа взята на проверку ревьюером."))
    ∧ (pyGet kvs "status" = PyVal.str "rejected" →
      parse_status (.dict kvs) = .ok
        ("Изменился статус проверки работы \"" ++ pyStr (pyGet kvs "homework_name")
          ++ "\". Работа проверена: у ревьюера есть замечания."))
    ∧ (∀ s : String, pyGet kvs "status" = PyVal.str s →
        s ∉ (["approved", "reviewing", "rejected"] : List String) →
        parse_status (.dict kvs)
          = .error (.valueError ("Неизвестный статус домашней работы: " ++ s)))
    ∧ (pyGet kvs "status" = PyVal.none →
        parse_status (.dict kvs)
          = .error (.valueError "Неизвестный статус домашней работы: None")) := by
  refine ⟨?_, ?_, ?_, ?_, ?_⟩
  · intro hst
    simp [parse_status, hname, hst, isHashable, verdictLookup, HOMEWORK_VERDICTS,
      List.find?, pyStr]
    rw [String.append_assoc]
    rfl
  · intro hst
    simp [parse_status, hname, hst, isHashable, verdictLookup, HOMEWORK_VERDICTS,
      List.find?, pyStr]
    rw [String.append_assoc]
    rfl
  · intro hst
    simp [parse_status, hname, hst, isHashable, verdictLookup, HOMEWORK_VERDICTS,
      List.find?, pyStr]
    rw [String.append_assoc]
    rfl
  · intro s hst hnotin
    simp only [List.mem_cons, List.not_mem_nil, or_false, not_or] at hnotin
    obtain ⟨hn1, hn2, hn3⟩ := hnotin
    have hb1 : ("approved" == s) = false := beq_eq_false_iff_ne.mpr (Ne.symm hn1)
    have hb2 : ("reviewing" == s) = false := beq_eq_false_iff_ne.mpr (Ne.symm hn2)
    have hb3 : ("rejected" == s) = false := beq_eq_false_iff_ne.mpr (Ne.symm hn3)
    simp [parse_status, hname, hst, isHashable, verdictLookup, HOMEWORK_VERDICTS,
      List.find?, hb1, hb2, hb3, pyStr]
  · intro hst
    simp [parse_status, hname, hst, isHashable, verdictLookup, pyStr]

/-- C4 (witness): the `reviewing` record renders to the exact template. -/
theorem C4_parse_status_contract_witness :
    parse_status (.dict [("homework_name", PyVal.str "hw1"),
        ("status", PyVal.str "reviewing")])
      = .ok "Изменился статус проверки работы \"hw1\". Работа взята на проверку ревьюером." :=
  (C4_parse_status_contract
    [("homework_name", PyVal.str "hw1"), ("status", PyVal.str "reviewing")] rfl).2.1 rfl

/-- C5: if two consecutive cycles parse to the identical message and the
first cycle recorded it in `last_message`, exactly one delivery attempt is
made across the two cycles — the second cycle skips delivery. -/
theorem C5_duplicate_suppressed (env1 env2 : CycleEnv) (st : LoopState) (m : String)
    (h1 : cycleParse env1 st = .ok (some m))
    (h2 : some m ≠ st.last_message)
    (h3 : cycleParse env2 (runCycle env1 st).1 = .ok (some m)) :
    (runCycle env1 st).2 ++ (runCycle env2 (runCycle env1 st).1).2 = [m] := by
  have e1 := runCycle_new_message env1 st m h1 h2
  rw [e1] at h3
  have e2 := runCycle_dup env2 { st with last_message := some m } m h3 rfl
  rw [e1]
  show [m] ++ (runCycle env2 { st with last_message := some m }).2 = [m]
  rw [e2]
  rfl

/-- C5 (witness): the identical `reviewing` response on two consecutive
cycles yields exactly one delivery attempt. -/
theorem C5_duplicate_suppressed_witness :
    (runCycle envRev st0).2 ++ (runCycle envRev (runCycle envRev st0).1).2
      = [msgRev] :=
  C5_duplicate_suppressed envRev envRev st0 msgRev rfl (by decide) rfl

/-- C6: `check_response` raises exactly when the input is not a mapping or
its `homeworks` field is absent or not a sequence, and returns every
well-shaped input unchanged. -/
theorem C6_check_response_contract (response : PyVal) :
    ((∃ e, check_response response = .error e) ↔ ¬ specWellShaped response)
    ∧ (specWellShaped response → check_response response = .ok response) := by
  have hok : specWellShaped response → check_response response = .ok response := by
    rintro ⟨kvs, hws, rfl, hlk⟩
    simp [check_response, pyGet, hlk, isList]
  refine ⟨⟨?_, ?_⟩, hok⟩
  · rintro ⟨e, he⟩ hws
    rw [hok hws] at he
    exact Except.noConfusion he
  · intro hnw
    cases response with
    | dict kvs =>
        by_cases hb : isList (pyGet kvs "homeworks") = true
        · obtain ⟨xs, hxs⟩ := (isList_true_iff _).mp hb
          exact absurd ⟨kvs, xs, rfl, (pyGet_eq_list _ _ _).mp hxs⟩ hnw
        · simp only [Bool.not_eq_true] at hb
          exact ⟨PyError.typeError "Неверный формат ответа",
            by simp [check_response, hb]⟩
    | none => exact ⟨_, rfl⟩
    | str s => exact ⟨_, rfl⟩
    | int n => exact ⟨_, rfl⟩
    | bool b => exact ⟨_, rfl⟩
    | list xs => exact ⟨_, rfl⟩

/-- C6 (witness): a well-shaped response (empty `homeworks`) comes back
unchanged. -/
theorem C6_check_response_contract_witness :
    check_response (PyVal.dict [("homeworks", PyVal.list [])])
      = .ok (PyVal.dict [("homeworks", PyVal.list [])]) :=
  (C6_check_response_contract (PyVal.dict [("homeworks", PyVal.list [])])).2
    ⟨[("homeworks", PyVal.list [])], [], rfl, rfl⟩

/-- C7 (counterexample): the two failure modes of the validator raise the
very same error — `TypeError` with the identical text — for a non-mapping
input and for a mapping without a `homeworks` sequence, so they are not
distinguishable. -/
theorem C7_counterexample :
    check_response (PyVal.int 0) = .error (.typeError "Неверный формат ответа")
    ∧ check_response (PyVal.dict []) = .error (.typeError "Неверный формат ответа")
    ∧ check_response (PyVal.int 0) = check_response (PyVal.dict []) := ⟨rfl, rfl, rfl⟩

/-- C7 (amended): both failure modes of `check_response` raise the same
shape error (`TypeError`, identical message); only the log lines differ,
the raised errors are equal. -/
theorem C7_amended_same_error (v w : PyVal)
    (hv : ∀ kvs, v ≠ PyVal.dict kvs)
    (hw : ∃ kvs, w = PyVal.dict kvs ∧ isList (pyGet kvs "homeworks") = false) :
    check_response v = .error (.typeError "Неверный формат ответа")
    ∧ check_response w = check_response v := by
  obtain ⟨kvs, rfl, hl⟩ := hw
  have h1 : check_response v = .error (.typeError "Неверный формат ответа") := by
    cases v with
    | dict kvs2 => exact absurd rfl (hv kvs2)
    | none => rfl
    | str s => rfl
    | int n => rfl
    | bool b => rfl
    | list xs => rfl
  refine ⟨h1, ?_⟩
  rw [h1]
  simp [check_response, hl]

/-- C7 (witness for the amended claim): a non-mapping and a mapping
without `homeworks` raise the equal error. -/
theorem C7_amended_same_error_witness :
    check_response (PyVal.int 0) = .error (.typeError "Неверный формат ответа")
    ∧ check_response (PyVal.dict []) = check_response (PyVal.int 0) :=
  C7_amended_same_error (PyVal.int 0) (PyVal.dict [])
    (fun _ h => nomatch h) ⟨[], rfl, rfl⟩

/-- C8: `send_message` never raises for any message and delivery outcome,
and consequently every pipeline error is handled by the generic branch —
the dedicated `telegram.TelegramError` handler is unreachable. -/
theorem C8_notifier_never_raises :
    (∀ m o, (send_message m o).1 = Except.ok ())
    ∧ ∀ env st e, cycleParse env st = .error e →
        e.isTelegramError = false ∧ runCycle env st = (st, [errorText e]) :=
  ⟨send_message_never_raises,
   fun env st e h => ⟨cycleParse_no_tg env st e h, runCycle_error env st e h⟩⟩

/-- C8 (witness): a failing delivery still returns normally, and the 503
cycle's error is handled by the generic branch, not the Telegram one. -/
theorem C8_notifier_never_raises_witness :
    (send_message msgRev (DeliveryOutcome.failure "boom")).1 = Except.ok ()
    ∧ (PyError.incorrectStatus sc503msg).isTelegramError = false
    ∧ runCycle env503 st0 = (st0, [errorText (PyError.incorrectStatus sc503msg)]) :=
  ⟨C8_notifier_never_raises.1 msgRev (DeliveryOutcome.failure "boom"),
   (C8_notifier_never_raises.2 env503 st0 (PyError.incorrectStatus sc503msg) rfl).1,
   (C8_notifier_never_raises.2 env503 st0 (PyError.incorrectStatus sc503msg) rfl).2⟩

/-- C9: if any of the three credentials is absent or empty, `check_tokens`
logs critically and exits with status 1, and `main` aborts with that exit
before running any poll cycle. -/
theorem C9_missing_credential_exits (cfg : Config) (startTime : Int)
    (envs : List CycleEnv)
    (h : cfg.PRACTICUM_TOKEN = Option.none ∨ cfg.PRACTICUM_TOKEN = some ""
      ∨ cfg.TELEGRAM_TOKEN = Option.none ∨ cfg.TELEGRAM_TOKEN = some ""
      ∨ cfg.TELEGRAM_CHAT_ID = Option.none ∨ cfg.TELEGRAM_CHAT_ID = some "") :
    ∃ log, check_tokens cfg = .error (1, log)
      ∧ main_run cfg startTime envs = .error (1, log) := by
  have hmem : ∃ nm, (nm, false) ∈ requiredTokens cfg := by
    rcases h with h | h | h | h | h | h
    · exact ⟨"PRACTICUM_TOKEN", by simp [requiredTokens, h, pyTruthyOptStr]⟩
    · exact ⟨"PRACTICUM_TOKEN", by simp [requiredTokens, h, pyTruthyOptStr]⟩
    · exact ⟨"TELEGRAM_TOKEN", by simp [requiredTokens, h, pyTruthyOptStr]⟩
    · exact ⟨"TELEGRAM_TOKEN", by simp [requiredTokens, h, pyTruthyOptStr]⟩
    · exact ⟨"TELEGRAM_CHAT_ID", by simp [requiredTokens, h, pyTruthyOptStr]⟩
    · exact ⟨"TELEGRAM_CHAT_ID", by simp [requiredTokens, h, pyTruthyOptStr]⟩
  obtain ⟨nm, hnm⟩ := hmem
  have hfil : nm ∈ ((requiredTokens cfg).filter (fun p => !p.2)).map (fun p => p.1) :=
    List.mem_map.mpr ⟨(nm, false), List.mem_filter.mpr ⟨hnm, rfl⟩, rfl⟩
  have hne : ((requiredTokens cfg).filter (fun p => !p.2)).map (fun p => p.1) ≠ [] :=
    List.ne_nil_of_mem hfil
  have hct : check_tokens cfg
      = .error (1, "Не хватает следующихтокенов: " ++ String.intercalate ", "
          (((requiredTokens cfg).filter (fun p => !p.2)).map (fun p => p.1))) := by
    simp only [check_tokens]
    rw [if_neg hne]
  refine ⟨_, hct, ?_⟩
  simp only [main_run]
  rw [hct]

/-- C9 (witness): a configuration without the API token exits with 1
before any cycle. -/
theorem C9_missing_credential_exits_witness :
    ∃ log, check_tokens cfgMissing = .error (1, log)
      ∧ main_run cfgMissing 0 [] = .error (1, log) :=
  C9_missing_credential_exits cfgMissing 0 [] (Or.inl rfl)

/-- C10 (counterexample): the `reviewing` message's delivery fails in
cycle 1, a different message intervenes in cycle 2, and cycle 3 attempts
the `reviewing` text again — a message whose delivery failed is attempted
again in a later cycle. -/
theorem C10_counterexample :
    envRevFail.sendOutcome = DeliveryOutcome.failure "Bad Request: chat not found"
    ∧ (runCycles [envRevFail, envApp, envRev] st0).2 = [msgRev, msgApp, msgRev]
    ∧ (runCycles [envRevFail, envApp, envRev] st0).2.count msgRev = 2 :=
  ⟨rfl, rfl, rfl⟩

/-- C10 (amended): when the parsed message differs from `last_message`,
the controller records it in `last_message` regardless of the delivery
outcome, so the message is not attempted again while it remains the
recorded last message (after an intervening different message it can be
attempted again). -/
theorem C10_amended_recorded_regardless (env : CycleEnv) (st : LoopState) (m : String)
    (h1 : cycleParse env st = .ok (some m))
    (h2 : some m ≠ st.last_message) :
    (∀ o, (runCycle { env with sendOutcome := o } st).1.last_message = some m)
    ∧ ∀ env2, cycleParse env2 (runCycle env st).1 = .ok (some m) →
        (runCycle env2 (runCycle env st).1).2 = [] := by
  constructor
  · intro o
    have h1o : cycleParse { env with sendOutcome := o } st = .ok (some m) := h1
    rw [runCycle_new_message { env with sendOutcome := o } st m h1o h2]
  · intro env2 h3
    have e1 := runCycle_new_message env st m h1 h2
    rw [e1] at h3
    rw [e1]
    exact congrArg Prod.snd
      (runCycle_dup env2 { st with last_message := some m } m h3 rfl)

/-- C10 (witness for the amended claim): with the failing delivery of the
`reviewing` message, `last_message` is still recorded and the identical
next cycle attempts nothing. -/
theorem C10_amended_recorded_regardless_witness :
    (runCycle { envRevFail with sendOutcome := DeliveryOutcome.success } st0).1.last_message
        = some msgRev
    ∧ (runCycle envRev (runCycle envRevFail st0).1).2 = [] :=
  ⟨(C10_amended_recorded_regardless envRevFail st0 msgRev rfl (by decide)).1
      DeliveryOutcome.success,
   (C10_amended_recorded_regardless envRevFail st0 msgRev rfl (by decide)).2
      envRev rfl⟩

end HomeworkBot
